import Mathlib

/-!
Shallow embedding of the simulation core of the "Camelback Nile Mile" ski game.

Sources embedded:
* `src/components/GameCanvas.tsx` (current revision): `generateObstacles`,
  `startGame`, `update` (physics, obstacle generation, culling, collision,
  Yeti pursuit, win condition).
* `src/unnamed/part_002`: the `GAME_CONFIG` constants actually imported by
  `GameCanvas.tsx` (the copy with `TRACK_LENGTH`).
* `src/services/geminiService.ts`: the deterministic coach-commentary
  generator with its cause matching.

Conventions of the embedding:
* JavaScript numbers are modelled as rationals; the decimal literals of the
  source appear as exact fractions (0.85 = 85/100, 0.065 = 13/200, ...).
* `Math.random()` is modelled as an injected stream `rand : Nat -> Rat`
  together with a cursor (`ridx`) threading through the state; each call of
  `Math.random()` in source order reads the next stream element.  A stream is
  a valid model of `Math.random` when all its values lie in `[0, 1)`.
* `getTrackOffset` computes `Math.sin(z * 0.0015) * 600`, a transcendental
  floating-point function; it is an injected parameter
  `trackOffset : Rat -> Rat` of the generator and of the tick function.  No
  statement below depends on its values.
* React state updates (`setGameState`, `setStats`) become ordinary fields of
  the simulation state, applied synchronously, which matches how the game
  loop observes them between ticks.
-/

namespace NileMile

/-- Run phases, from `GameState` in `src/types.ts`. -/
inductive GameState where
  | MENU
  | COUNTDOWN
  | PLAYING
  | GAME_OVER
  | VICTORY
  | PAUSED
deriving DecidableEq, Repr

/-- Difficulty tiers, from `Difficulty` in `src/types.ts`. -/
inductive Difficulty where
  | EASY
  | HARD
deriving DecidableEq, Repr

/-- Obstacle categories, from `ObstacleType` in `src/types.ts`. -/
inductive ObstacleType where
  | TREE
  | ROCK
  | STUMP
  | YETI
deriving DecidableEq, Repr

/-- Result of `obs.type.toLowerCase()` on the string value of the enum. -/
def ObstacleType.toLowerCase : ObstacleType → String
  | .TREE => "tree"
  | .ROCK => "rock"
  | .STUMP => "stump"
  | .YETI => "yeti"

/-- Obstacle record, from `Obstacle` in `src/types.ts`. -/
structure Obstacle where
  id : ℚ
  x : ℚ
  y : ℚ
  type : ObstacleType
  width : ℚ
  height : ℚ
deriving DecidableEq, Repr

/-- Player phase tag, from the `state` field of `Player` in `src/types.ts`. -/
inductive PlayerPhase where
  | skiing
  | crashed
  | jumping
deriving DecidableEq, Repr

/-- Player record, from `Player` in `src/types.ts`. -/
structure Player where
  x : ℚ
  y : ℚ
  speed : ℚ
  direction : ℚ
  state : PlayerPhase
deriving DecidableEq, Repr

/-- Pressed-key snapshot, from the `keys` field of `stateRef`. -/
structure Keys where
  left : Bool
  right : Bool
  down : Bool
deriving DecidableEq, Repr

/-- Yeti pursuit-agent state, from the `yeti` field of `stateRef`. -/
structure Yeti where
  active : Bool
  x : ℚ
  y : ℚ
  speed : ℚ
deriving DecidableEq, Repr

namespace GAME_CONFIG

/-- `GAME_CONFIG.BASE_SPEED` from `src/unnamed/part_002`. -/
def BASE_SPEED : ℚ := 5

/-- `GAME_CONFIG.MAX_SPEED` from `src/unnamed/part_002`. -/
def MAX_SPEED : ℚ := 12

/-- `GAME_CONFIG.ACCELERATION` from `src/unnamed/part_002`. -/
def ACCELERATION : ℚ := 1/10

/-- `GAME_CONFIG.TRACK_WIDTH` from `src/unnamed/part_002`. -/
def TRACK_WIDTH : ℚ := 800

/-- `GAME_CONFIG.VIEW_DISTANCE` from `src/unnamed/part_002`. -/
def VIEW_DISTANCE : ℚ := 1500

/-- `GAME_CONFIG.TRACK_LENGTH` from `src/unnamed/part_002`. -/
def TRACK_LENGTH : ℚ := 2000

end GAME_CONFIG

/-- A stream models `Math.random()` when every drawn value lies in `[0, 1)`. -/
def ValidRand (rand : ℕ → ℚ) : Prop :=
  ∀ n, 0 ≤ rand n ∧ rand n < 1

/-- The generator-owned slice of `stateRef`: the obstacle collection, the
generation frontier `lastObstacleY`, and the random-stream cursor. -/
structure GenState where
  obstacles : List Obstacle
  lastObstacleY : ℚ
  ridx : ℕ
deriving DecidableEq, Repr

/-- `MAX_GEN_Y` from `generateObstacles` in `GameCanvas.tsx`: generation
stops past `TRACK_LENGTH - 300` (the lodge area safe zone). -/
def MAX_GEN_Y : ℚ := GAME_CONFIG.TRACK_LENGTH - 300

/-- One iteration of the `while` loop body of `generateObstacles`
(`GameCanvas.tsx` lines 83-141): push the four forest trees and, in HARD
difficulty with probability 0.15, one on-track rock or stump.  Returns the
extended collection and the advanced random cursor.  Random draws follow
JavaScript evaluation order (object fields left to right; the hazard
condition `difficulty === Difficulty.HARD && Math.random() < 0.15`
short-circuits, so EASY consumes no draw for it). -/
def genStep (rand : ℕ → ℚ) (difficulty : Difficulty) (trackOffset : ℚ → ℚ)
    (currentY : ℚ) (obstacles : List Obstacle) (ridx : ℕ) :
    List Obstacle × ℕ :=
  let trackCenter := trackOffset currentY
  let halfWidth := GAME_CONFIG.TRACK_WIDTH / 2
  let leftBoundary := trackCenter - halfWidth
  let rightBoundary := trackCenter + halfWidth
  let o1 : Obstacle :=
    { id := rand ridx, x := leftBoundary - 20 - rand (ridx+1) * 60,
      y := currentY, type := .TREE,
      width := 60 + rand (ridx+2) * 30, height := 90 + rand (ridx+3) * 50 }
  let o2 : Obstacle :=
    { id := rand (ridx+4), x := leftBoundary - 100 - rand (ridx+5) * 200,
      y := currentY + rand (ridx+6) * 20, type := .TREE,
      width := 50, height := 80 }
  let o3 : Obstacle :=
    { id := rand (ridx+7), x := rightBoundary + 20 + rand (ridx+8) * 60,
      y := currentY, type := .TREE,
      width := 60 + rand (ridx+9) * 30, height := 90 + rand (ridx+10) * 50 }
  let o4 : Obstacle :=
    { id := rand (ridx+11), x := rightBoundary + 100 + rand (ridx+12) * 200,
      y := currentY + rand (ridx+13) * 20, type := .TREE,
      width := 50, height := 80 }
  let pushed := obstacles ++ [o1, o2, o3, o4]
  if difficulty = Difficulty.HARD then
    if rand (ridx + 14) < 15/100 then
      let lane := (rand (ridx + 15) - 1/2) * (9/10)
      let o5 : Obstacle :=
        { id := rand (ridx + 16),
          x := trackCenter + lane * GAME_CONFIG.TRACK_WIDTH,
          y := currentY,
          type := if rand (ridx + 17) > 6/10 then .ROCK else .STUMP,
          width := 30, height := 30 }
      (pushed ++ [o5], ridx + 18)
    else (pushed, ridx + 15)
  else (pushed, ridx + 14)

/-- The `while (currentY < endY)` loop of `generateObstacles`
(`GameCanvas.tsx` lines 83-144): break past `MAX_GEN_Y`, otherwise run the
body, advance `currentY` by 35, and record it as the new frontier. -/
def genLoop (rand : ℕ → ℚ) (difficulty : Difficulty) (trackOffset : ℚ → ℚ)
    (endY : ℚ) (currentY : ℚ) (st : GenState) : GenState :=
  if currentY < endY then
    if currentY > MAX_GEN_Y then st
    else
      genLoop rand difficulty trackOffset endY (currentY + 35)
        ⟨(genStep rand difficulty trackOffset currentY st.obstacles st.ridx).1,
         currentY + 35,
         (genStep rand difficulty trackOffset currentY st.obstacles st.ridx).2⟩
  else st
termination_by (Int.ceil (endY - currentY)).toNat
decreasing_by
  have h1 : (0:ℚ) < endY - currentY := by linarith
  have h2 : 0 < Int.ceil (endY - currentY) := Int.ceil_pos.mpr h1
  have h3 : Int.ceil (endY - (currentY + 35)) = Int.ceil (endY - currentY) - 35 := by
    have h4 : endY - (currentY + 35) = (endY - currentY) - ((35:ℤ) : ℚ) := by
      push_cast
      ring
    rw [h4, Int.ceil_sub_int]
  omega

/-- `generateObstacles(startY, endY)` from `GameCanvas.tsx` lines 75-145:
start the walk at `max(startY, lastObstacleY + 40)` and run the loop. -/
def generateObstacles (rand : ℕ → ℚ) (difficulty : Difficulty)
    (trackOffset : ℚ → ℚ) (startY endY : ℚ) (st : GenState) : GenState :=
  genLoop rand difficulty trackOffset endY (max startY (st.lastObstacleY + 40)) st

/-- A sequence of `generateObstacles` calls, applied left to right. -/
def applyCalls (rand : ℕ → ℚ) (difficulty : Difficulty)
    (trackOffset : ℚ → ℚ) : List (ℚ × ℚ) → GenState → GenState
  | [], st => st
  | (a, b) :: rest, st =>
      applyCalls rand difficulty trackOffset rest
        (generateObstacles rand difficulty trackOffset a b st)

/-- The collision loop of `update` (`GameCanvas.tsx` lines 315-326): walk the
collection in insertion order; the first obstacle whose longitudinal delta
lies in `(-10, 30)` and whose absolute lateral delta is below half its width
yields the crash cause string. -/
def findCollision (px py : ℚ) : List Obstacle → Option String
  | [] => none
  | o :: rest =>
      if (-10 < o.y - py ∧ o.y - py < 30) ∧ |o.x - px| < o.width / 2 then
        some ("Hit a " ++ o.type.toLowerCase)
      else findCollision px py rest

/-- The whole mutable simulation state of a run: the `stateRef` fields that
the claims touch, the `gameState` React state, the chosen difficulty, and the
`causeOfDeath` statistic recorded by `gameOver`/`finishGame`.  Wall-clock
fields (`startTime`, elapsed time) are outside the embedding. -/
structure SimState where
  gameState : GameState
  difficulty : Difficulty
  player : Player
  obstacles : List Obstacle
  lastObstacleY : ℚ
  yeti : Yeti
  finished : Bool
  topSpeed : ℚ
  causeOfDeath : Option String
  ridx : ℕ
deriving DecidableEq, Repr

/-- The movement physics of the normal branch of `update` (`GameCanvas.tsx`
lines 271-297): acceleration toward the difficulty-dependent maximum, turn
handling with its speed penalty or damping, the symmetric clamp of the
steering direction, and position integration. -/
def tickMove (difficulty : Difficulty) (keys : Keys) (p : Player) : Player :=
  let targetMaxSpeed := if difficulty = Difficulty.EASY then (8:ℚ) else GAME_CONFIG.MAX_SPEED
  let speed1 := if p.speed < targetMaxSpeed
    then p.speed + GAME_CONFIG.ACCELERATION else p.speed
  let turn : ℚ := (if keys.left then -1 else 0) + (if keys.right then 1 else 0)
  let direction1 := if turn ≠ 0 then p.direction + turn * (13/200)
    else p.direction * (19/20)
  let speed2 := if turn ≠ 0 then speed1 - 1/20 else speed1
  let direction2 := max (-(3/2)) (min (3/2) direction1)
  ⟨p.x + direction2 * GAME_CONFIG.BASE_SPEED * 2, p.y + speed2,
   speed2, direction2, p.state⟩

/-- The track-management step of `update` (`GameCanvas.tsx` lines 307-309):
extend the obstacle field when the frontier is short of the view horizon of
the post-physics player `p1`. -/
def tickGen (rand : ℕ → ℚ) (trackOffset : ℚ → ℚ) (st : SimState)
    (p1 : Player) : GenState :=
  if st.lastObstacleY < p1.y + GAME_CONFIG.VIEW_DISTANCE then
    generateObstacles rand st.difficulty trackOffset st.lastObstacleY
      (p1.y + GAME_CONFIG.VIEW_DISTANCE + 500)
      ⟨st.obstacles, st.lastObstacleY, st.ridx⟩
  else ⟨st.obstacles, st.lastObstacleY, st.ridx⟩

/-- One call of `update` (`GameCanvas.tsx` lines 250-353).  Mirrors the
source control flow: the `gameState` guard, the win-condition deceleration
branch, then the movement physics (`tickMove`), top-speed tracking, obstacle
generation, culling, collision detection, and Yeti logic. -/
def update (rand : ℕ → ℚ) (trackOffset : ℚ → ℚ) (keys : Keys)
    (st : SimState) : SimState :=
  if st.gameState ≠ GameState.PLAYING then st
  else if st.player.y ≥ GAME_CONFIG.TRACK_LENGTH then
    -- Win condition: decelerate in the pub zone (lines 257-269).
    let speed1 := st.player.speed * (85/100)
    if speed1 < 3/2 then
      { st with
        finished := true,
        gameState := GameState.VICTORY,
        causeOfDeath := none,
        player := { st.player with
          speed := 0,
          x := st.player.x + st.player.direction * GAME_CONFIG.BASE_SPEED * (1/2),
          y := st.player.y + 0 } }
    else
      { st with
        finished := true,
        player := { st.player with
          speed := speed1,
          x := st.player.x + st.player.direction * GAME_CONFIG.BASE_SPEED * (1/2),
          y := st.player.y + speed1 } }
  else
    let p1 := tickMove st.difficulty keys st.player
    let topSpeed1 := if p1.speed * 5 > st.topSpeed then p1.speed * 5 else st.topSpeed
    let g1 := tickGen rand trackOffset st p1
    let obstacles1 := g1.obstacles.filter (fun o => decide (o.y > p1.y - 1500))
    match findCollision p1.x p1.y obstacles1 with
    | some cause =>
        { st with
          gameState := GameState.GAME_OVER,
          causeOfDeath := some cause,
          player := { p1 with state := PlayerPhase.crashed },
          obstacles := obstacles1,
          lastObstacleY := g1.lastObstacleY,
          ridx := g1.ridx,
          topSpeed := topSpeed1 }
    | none =>
        let yeti1 := if p1.y > 5000 ∧ p1.y < GAME_CONFIG.TRACK_LENGTH - 500 ∧ st.yeti.active = false then
            (if st.difficulty = Difficulty.HARD ∨ p1.y > 15000 then
              { st.yeti with active := true, y := p1.y - 800, x := p1.x }
            else st.yeti)
          else st.yeti
        if yeti1.active then
          let yspeed := p1.speed + (if st.difficulty = Difficulty.EASY then (2:ℚ)/10 else 6/10)
          let yy := yeti1.y + yspeed
          let yx := yeti1.x + (p1.x - yeti1.x) * (4/100)
          if yy > p1.y - 20 then
            { st with
              gameState := GameState.GAME_OVER,
              causeOfDeath := some "Caught by the Yeti",
              player := { p1 with state := PlayerPhase.crashed },
              obstacles := obstacles1,
              lastObstacleY := g1.lastObstacleY,
              ridx := g1.ridx,
              topSpeed := topSpeed1,
              yeti := ⟨true, yx, yy, yspeed⟩ }
          else
            { st with
              player := p1,
              obstacles := obstacles1,
              lastObstacleY := g1.lastObstacleY,
              ridx := g1.ridx,
              topSpeed := topSpeed1,
              yeti := ⟨true, yx, yy, yspeed⟩ }
        else
          { st with
            player := p1,
            obstacles := obstacles1,
            lastObstacleY := g1.lastObstacleY,
            ridx := g1.ridx,
            topSpeed := topSpeed1,
            yeti := yeti1 }

/-- The fresh run state built by `startGame` (`GameCanvas.tsx` lines
147-168) from the seeded generator state `g`: reset player, inactive Yeti,
zeroed statistics. -/
def startGameWith (difficulty : Difficulty) (g : GenState) : SimState :=
  { gameState := GameState.PLAYING,
    difficulty := difficulty,
    player := ⟨0, 0, 0, 0, PlayerPhase.skiing⟩,
    obstacles := g.obstacles,
    lastObstacleY := g.lastObstacleY,
    yeti := ⟨false, 0, -1000, 0⟩,
    finished := false,
    topSpeed := 0,
    causeOfDeath := none,
    ridx := g.ridx }

/-- `startGame` (`GameCanvas.tsx` lines 147-168): reset the whole state and
seed the initial obstacles for the view distance.  The countdown only delays
the transition to `PLAYING` without touching the simulation state, so the
embedding starts directly in `PLAYING`. -/
def startGame (rand : ℕ → ℚ) (trackOffset : ℚ → ℚ)
    (difficulty : Difficulty) : SimState :=
  startGameWith difficulty
    (generateObstacles rand difficulty trackOffset 0
      GAME_CONFIG.VIEW_DISTANCE ⟨[], 0, 0⟩)

/-- Iterate `update` for a number of ticks, feeding tick `n` the key snapshot
`ks n`. -/
def runTicks (rand : ℕ → ℚ) (trackOffset : ℚ → ℚ) (ks : ℕ → Keys)
    (st : SimState) : ℕ → SimState
  | 0 => st
  | n + 1 => update rand trackOffset (ks n) (runTicks rand trackOffset ks st n)

/-- Final-run statistics, from `GameStats` in `src/types.ts` (the elapsed
time field is wall clock and stays outside the embedding). -/
structure GameStats where
  score : ℚ
  distance : ℚ
  topSpeed : ℚ
  causeOfDeath : Option String
deriving DecidableEq, Repr

/-- Check whether the character list `pat` starts the list `s`. -/
def charsStart : List Char → List Char → Bool
  | _, [] => true
  | [], _ :: _ => false
  | c :: s, p :: ps => c = p && charsStart s ps

/-- Check whether `pat` occurs as a contiguous sublist of `s`. -/
def charsHaveSub : List Char → List Char → Bool
  | [], pat => pat.isEmpty
  | c :: rest, pat => charsStart (c :: rest) pat || charsHaveSub rest pat

/-- JavaScript `String.prototype.includes`: substring membership. -/
def strIncludes (s pat : String) : Bool :=
  charsHaveSub s.data pat.data

/-- JavaScript `String.prototype.toLowerCase`, restricted to the ASCII range
that the game cause strings use. -/
def strToLower (s : String) : String :=
  ⟨s.data.map Char.toLower⟩

/-- `CHUCKS_TIPS` from `src/services/geminiService.ts`. -/
def CHUCKS_TIPS : List String :=
  [ "Trees are strictly stationary objects. Try avoiding them.",
    "If you French fry when you should pizza, you\x27re gonna have a bad time.",
    "That wasn\x27t skiing, that was falling with style.",
    "The Yeti just wants a hug. A very fast, aggressive hug.",
    "Gravity is a law, not a suggestion.",
    "Keep your tips up and your ego down.",
    "You\x27re paying for the whole run, try to stay on your feet for it.",
    "I\x27ve seen better carving at a Thanksgiving dinner.",
    "Snow is cold. Try staying off of it.",
    "Back in \x2791, we didn\x27t have helmets... we just didn\x27t hit things." ]

/-- `getSkiCoachCommentary` from `src/services/geminiService.ts` lines 16-32:
cause-matched picks for yeti and tree crashes, otherwise a random tip.  The
single `Math.random()` call is the `rand` argument; the radio-delay await has
no effect on the returned string. -/
def getSkiCoachCommentary (rand : ℚ) (stats : GameStats) : String :=
  if (match stats.causeOfDeath with
      | some c => strIncludes (strToLower c) "yeti"
      | none => false) then
    "The Yeti just wants a hug. A very fast, aggressive hug."
  else if (match stats.causeOfDeath with
      | some c => strIncludes (strToLower c) "tree"
      | none => false) then
    "Trees are strictly stationary objects. Try avoiding them."
  else
    CHUCKS_TIPS.getD (Int.floor (rand * (CHUCKS_TIPS.length : ℚ))).toNat ""

/-- The tree obstacle of the collision scenario: category TREE placed at
`(x = 0, y = 100)`, with the fixed deep-forest tree size from the generator. -/
def scenarioTree : Obstacle :=
  ⟨1, 0, 100, ObstacleType.TREE, 50, 80⟩

/-- Unfolding equation of the generation loop. -/
theorem genLoop_eq (rand : ℕ → ℚ) (difficulty : Difficulty)
    (trackOffset : ℚ → ℚ) (endY currentY : ℚ) (st : GenState) :
    genLoop rand difficulty trackOffset endY currentY st =
      if currentY < endY then
        if currentY > MAX_GEN_Y then st
        else
          genLoop rand difficulty trackOffset endY (currentY + 35)
            ⟨(genStep rand difficulty trackOffset currentY st.obstacles st.ridx).1,
             currentY + 35,
             (genStep rand difficulty trackOffset currentY st.obstacles st.ridx).2⟩
      else st := by
  rw [genLoop]

/-- Master induction principle for the generation loop: any predicate on the
walk position and the generator state that survives one loop body survives
the whole loop. -/
theorem genLoop_inv (rand : ℕ → ℚ) (difficulty : Difficulty)
    (trackOffset : ℚ → ℚ) (endY : ℚ) (P : ℚ → GenState → Prop)
    (hstep : ∀ currentY st, currentY < endY → ¬ currentY > MAX_GEN_Y →
      P currentY st →
      P (currentY + 35)
        ⟨(genStep rand difficulty trackOffset currentY st.obstacles st.ridx).1,
         currentY + 35,
         (genStep rand difficulty trackOffset currentY st.obstacles st.ridx).2⟩) :
    ∀ currentY st, P currentY st →
      ∃ c, P c (genLoop rand difficulty trackOffset endY currentY st) := by
  have key : ∀ n currentY st, (Int.ceil (endY - currentY)).toNat ≤ n →
      P currentY st →
      ∃ c, P c (genLoop rand difficulty trackOffset endY currentY st) := by
    intro n
    induction n with
    | zero =>
      intro currentY st hn hP
      have hnot : ¬ currentY < endY := by
        intro hlt
        have h1 : (0:ℚ) < endY - currentY := by linarith
        have h2 : 0 < Int.ceil (endY - currentY) := Int.ceil_pos.mpr h1
        omega
      rw [genLoop_eq]
      simp only [hnot, if_false]
      exact ⟨currentY, hP⟩
    | succ n ih =>
      intro currentY st hn hP
      rw [genLoop_eq]
      by_cases h1 : currentY < endY
      · by_cases h2 : currentY > MAX_GEN_Y
        · simp only [h1, h2, if_true]
          exact ⟨currentY, hP⟩
        · simp only [h1, h2, if_true, if_false]
          apply ih
          · have h3 : Int.ceil (endY - (currentY + 35)) =
                Int.ceil (endY - currentY) - 35 := by
              have h4 : endY - (currentY + 35) = (endY - currentY) - ((35:ℤ) : ℚ) := by
                push_cast
                ring
              rw [h4, Int.ceil_sub_int]
            omega
          · exact hstep currentY st h1 h2 hP
      · simp only [h1, if_false]
        exact ⟨currentY, hP⟩
  intro currentY st hP
  exact key (Int.ceil (endY - currentY)).toNat currentY st le_rfl hP

/-- The loop never lowers the frontier, provided the frontier starts no more
than one step ahead of the walk position. -/
theorem genLoop_frontier_mono (rand : ℕ → ℚ) (difficulty : Difficulty)
    (trackOffset : ℚ → ℚ) (endY currentY : ℚ) (st : GenState)
    (h : st.lastObstacleY ≤ currentY + 35) :
    st.lastObstacleY ≤
      (genLoop rand difficulty trackOffset endY currentY st).lastObstacleY := by
  have := genLoop_inv rand difficulty trackOffset endY
    (fun c s => st.lastObstacleY ≤ s.lastObstacleY ∧ s.lastObstacleY ≤ c + 35)
    (by
      intro currentY' st' _ _ hP
      dsimp only
      exact ⟨le_trans hP.1 (by linarith [hP.2]), by linarith⟩)
    currentY st ⟨le_rfl, h⟩
  obtain ⟨c, hc⟩ := this
  exact hc.1

/-- A single `generateObstacles` call never lowers the frontier. -/
theorem generateObstacles_frontier_mono (rand : ℕ → ℚ)
    (difficulty : Difficulty) (trackOffset : ℚ → ℚ) (startY endY : ℚ)
    (st : GenState) :
    st.lastObstacleY ≤
      (generateObstacles rand difficulty trackOffset startY endY st).lastObstacleY := by
  unfold generateObstacles
  apply genLoop_frontier_mono
  have h1 : st.lastObstacleY + 40 ≤ max startY (st.lastObstacleY + 40) :=
    le_max_right _ _
  linarith

/-- A call whose target is already behind the frontier leaves the state
untouched. -/
theorem generateObstacles_noop (rand : ℕ → ℚ) (difficulty : Difficulty)
    (trackOffset : ℚ → ℚ) (startY endY : ℚ) (st : GenState)
    (h : endY ≤ st.lastObstacleY) :
    generateObstacles rand difficulty trackOffset startY endY st = st := by
  unfold generateObstacles
  rw [genLoop_eq]
  have hnot : ¬ max startY (st.lastObstacleY + 40) < endY := by
    have h1 : st.lastObstacleY + 40 ≤ max startY (st.lastObstacleY + 40) :=
      le_max_right _ _
    intro hlt
    linarith
  simp only [hnot, if_false]

/-- C1: across any sequence of `extend(fromY, toY)` calls the generation
frontier `lastObstacleY` is monotonically non-decreasing, and a call made
when the frontier is already at or past `toY` is a no-op, leaving the whole
generator state (in particular the size of the obstacle collection)
unchanged. -/
theorem c1_frontier_monotone_and_noop (rand : ℕ → ℚ) (difficulty : Difficulty)
    (trackOffset : ℚ → ℚ) :
    (∀ calls st, st.lastObstacleY ≤
      (applyCalls rand difficulty trackOffset calls st).lastObstacleY) ∧
    (∀ startY endY st, endY ≤ st.lastObstacleY →
      generateObstacles rand difficulty trackOffset startY endY st = st ∧
      (generateObstacles rand difficulty trackOffset startY endY st).obstacles.length =
        st.obstacles.length) := by
  constructor
  · intro calls
    induction calls with
    | nil =>
      intro st
      simp [applyCalls]
    | cons hd tl ih =>
      intro st
      obtain ⟨a, b⟩ := hd
      have h1 : st.lastObstacleY ≤
          (generateObstacles rand difficulty trackOffset a b st).lastObstacleY :=
        generateObstacles_frontier_mono rand difficulty trackOffset a b st
      have h2 := ih (generateObstacles rand difficulty trackOffset a b st)
      simpa [applyCalls] using le_trans h1 h2
  · intro startY endY st h
    have he := generateObstacles_noop rand difficulty trackOffset startY endY st h
    exact ⟨he, by rw [he]⟩

/-- Witness for `c1_frontier_monotone_and_noop`: a concrete no-op call with
the frontier past the target. -/
theorem c1_frontier_monotone_and_noop_witness :
    ((-5 : ℚ) ≤ (⟨[], 0, 0⟩ : GenState).lastObstacleY) ∧
    (generateObstacles (fun _ => 0) Difficulty.EASY (fun _ => 0) 7 (-5)
        ⟨[], 0, 0⟩ = ⟨[], 0, 0⟩ ∧
      (generateObstacles (fun _ => 0) Difficulty.EASY (fun _ => 0) 7 (-5)
        ⟨[], 0, 0⟩).obstacles.length = (⟨[], 0, 0⟩ : GenState).obstacles.length) :=
  ⟨by norm_num,
   (c1_frontier_monotone_and_noop (fun _ => 0) Difficulty.EASY (fun _ => 0)).2
     7 (-5) ⟨[], 0, 0⟩ (by norm_num)⟩

/-- Every obstacle in a `genStep` result is either an old one, a tree placed
at the walk position (possibly jittered forward by `rand * 20`), or — only in
HARD difficulty and only when the hazard draw is below 0.15 — a rock or stump
at the walk position whose lateral offset from the track center is
`(rand - 1/2) * 0.9 * TRACK_WIDTH`. -/
theorem genStep_mem (rand : ℕ → ℚ) (difficulty : Difficulty)
    (trackOffset : ℚ → ℚ) (currentY : ℚ) (obstacles : List Obstacle)
    (ridx : ℕ) :
    ∀ o ∈ (genStep rand difficulty trackOffset currentY obstacles ridx).1,
      o ∈ obstacles ∨
      (o.type = ObstacleType.TREE ∧
        (o.y = currentY ∨ o.y = currentY + rand (ridx+6) * 20 ∨
         o.y = currentY + rand (ridx+13) * 20)) ∨
      (difficulty = Difficulty.HARD ∧ rand (ridx+14) < 15/100 ∧
        (o.type = ObstacleType.ROCK ∨ o.type = ObstacleType.STUMP) ∧
        o.y = currentY ∧
        o.x = trackOffset currentY +
          (rand (ridx+15) - 1/2) * (9/10) * GAME_CONFIG.TRACK_WIDTH) := by
  intro o ho
  unfold genStep at ho
  by_cases hd : difficulty = Difficulty.HARD
  · simp only [hd, if_true] at ho
    by_cases hr : rand (ridx+14) < 15/100
    · simp only [hr, if_true] at ho
      simp only [List.mem_append, List.mem_cons, List.mem_singleton,
        List.not_mem_nil, or_false] at ho
      rcases ho with (ho | ho | ho | ho | ho) | ho
      · exact Or.inl ho
      · subst ho
        exact Or.inr (Or.inl ⟨rfl, Or.inl rfl⟩)
      · subst ho
        exact Or.inr (Or.inl ⟨rfl, Or.inr (Or.inl rfl)⟩)
      · subst ho
        exact Or.inr (Or.inl ⟨rfl, Or.inl rfl⟩)
      · subst ho
        exact Or.inr (Or.inl ⟨rfl, Or.inr (Or.inr rfl)⟩)
      · subst ho
        refine Or.inr (Or.inr ⟨hd, hr, ?_, rfl, by ring⟩)
        by_cases ht : rand (ridx+17) > 6/10
        · simp [ht]
        · simp [ht]
    · simp only [hr, if_false] at ho
      simp only [List.mem_append, List.mem_cons, List.mem_singleton,
        List.not_mem_nil, or_false] at ho
      rcases ho with ho | ho | ho | ho | ho
      · exact Or.inl ho
      · subst ho
        exact Or.inr (Or.inl ⟨rfl, Or.inl rfl⟩)
      · subst ho
        exact Or.inr (Or.inl ⟨rfl, Or.inr (Or.inl rfl)⟩)
      · subst ho
        exact Or.inr (Or.inl ⟨rfl, Or.inl rfl⟩)
      · subst ho
        exact Or.inr (Or.inl ⟨rfl, Or.inr (Or.inr rfl)⟩)
  · simp only [hd, if_false] at ho
    simp only [List.mem_append, List.mem_cons, List.mem_singleton,
      List.not_mem_nil, or_false] at ho
    rcases ho with ho | ho | ho | ho | ho
    · exact Or.inl ho
    · subst ho
      exact Or.inr (Or.inl ⟨rfl, Or.inl rfl⟩)
    · subst ho
      exact Or.inr (Or.inl ⟨rfl, Or.inr (Or.inl rfl)⟩)
    · subst ho
      exact Or.inr (Or.inl ⟨rfl, Or.inl rfl⟩)
    · subst ho
      exact Or.inr (Or.inl ⟨rfl, Or.inr (Or.inr rfl)⟩)

/-- Membership invariants survive `generateObstacles`: it suffices that the
invariant holds of every tree and every HARD-mode hazard placed at a walk
position within the generation cutoff. -/
theorem generateObstacles_mem_inv (rand : ℕ → ℚ) (difficulty : Difficulty)
    (trackOffset : ℚ → ℚ) (P : Obstacle → Prop)
    (htree : ∀ c o, c ≤ MAX_GEN_Y → o.type = ObstacleType.TREE →
      (o.y = c ∨ ∃ k, o.y = c + rand k * 20) → P o)
    (hhaz : ∀ c o, c ≤ MAX_GEN_Y → difficulty = Difficulty.HARD →
      (o.type = ObstacleType.ROCK ∨ o.type = ObstacleType.STUMP) → o.y = c →
      (∃ k, o.x = trackOffset c +
        (rand k - 1/2) * (9/10) * GAME_CONFIG.TRACK_WIDTH) → P o)
    (startY endY : ℚ) (st : GenState) (h0 : ∀ o ∈ st.obstacles, P o) :
    ∀ o ∈ (generateObstacles rand difficulty trackOffset startY endY st).obstacles,
      P o := by
  unfold generateObstacles
  have hmain := genLoop_inv rand difficulty trackOffset endY
    (fun _ s => ∀ o ∈ s.obstacles, P o)
    (by
      intro c s _ hng hP
      dsimp only
      intro o ho
      rcases genStep_mem rand difficulty trackOffset c s.obstacles s.ridx o ho with
        h | h | h
      · exact hP o h
      · refine htree c o (le_of_not_lt hng) h.1 ?_
        rcases h.2 with h2 | h2 | h2
        · exact Or.inl h2
        · exact Or.inr ⟨_, h2⟩
        · exact Or.inr ⟨_, h2⟩
      · exact hhaz c o (le_of_not_lt hng) h.1 h.2.2.1 h.2.2.2.1 ⟨_, h.2.2.2.2⟩)
    (max startY (st.lastObstacleY + 40)) st h0
  obtain ⟨c, hc⟩ := hmain
  exact hc

/-- Membership invariants survive any sequence of `generateObstacles` calls. -/
theorem applyCalls_mem_inv (rand : ℕ → ℚ) (difficulty : Difficulty)
    (trackOffset : ℚ → ℚ) (P : Obstacle → Prop)
    (htree : ∀ c o, c ≤ MAX_GEN_Y → o.type = ObstacleType.TREE →
      (o.y = c ∨ ∃ k, o.y = c + rand k * 20) → P o)
    (hhaz : ∀ c o, c ≤ MAX_GEN_Y → difficulty = Difficulty.HARD →
      (o.type = ObstacleType.ROCK ∨ o.type = ObstacleType.STUMP) → o.y = c →
      (∃ k, o.x = trackOffset c +
        (rand k - 1/2) * (9/10) * GAME_CONFIG.TRACK_WIDTH) → P o) :
    ∀ calls st, (∀ o ∈ st.obstacles, P o) →
      ∀ o ∈ (applyCalls rand difficulty trackOffset calls st).obstacles, P o := by
  intro calls
  induction calls with
  | nil =>
    intro st h0
    simpa [applyCalls] using h0
  | cons hd tl ih =>
    intro st h0
    obtain ⟨a, b⟩ := hd
    have h1 := generateObstacles_mem_inv rand difficulty trackOffset P htree hhaz
      a b st h0
    simpa [applyCalls] using ih _ h1

/-- A tick outside the PLAYING phase is the identity (the guard on line 251). -/
theorem update_not_playing (rand : ℕ → ℚ) (trackOffset : ℚ → ℚ)
    (keys : Keys) (st : SimState) (h : st.gameState ≠ GameState.PLAYING) :
    update rand trackOffset keys st = st := by
  simp [update, h]

/-- The finish branch of `update`: while PLAYING at or past the track length
the tick only decelerates and drifts the player, transitioning to VICTORY
exactly when the decayed speed falls below 1.5. -/
theorem update_finish (rand : ℕ → ℚ) (trackOffset : ℚ → ℚ) (keys : Keys)
    (st : SimState) (hg : st.gameState = GameState.PLAYING)
    (hy : GAME_CONFIG.TRACK_LENGTH ≤ st.player.y) :
    update rand trackOffset keys st =
      if st.player.speed * (85/100) < 3/2 then
        { st with
          finished := true,
          gameState := GameState.VICTORY,
          causeOfDeath := none,
          player := { st.player with
            speed := 0,
            x := st.player.x + st.player.direction * GAME_CONFIG.BASE_SPEED * (1/2),
            y := st.player.y + 0 } }
      else
        { st with
          finished := true,
          player := { st.player with
            speed := st.player.speed * (85/100),
            x := st.player.x + st.player.direction * GAME_CONFIG.BASE_SPEED * (1/2),
            y := st.player.y + st.player.speed * (85/100) } } := by
  have hguard : ¬ st.gameState ≠ GameState.PLAYING := by simp [hg]
  simp only [update, hguard, if_false, ge_iff_le, hy, if_true]

/-- Shared shape of all four outcomes of the normal branch of `update`: the
obstacle collection is the culled extension, the player position and motion
are the `tickMove` result, and frontier, cursor and difficulty are carried
from the generation step. -/
theorem update_normal_fields (rand : ℕ → ℚ) (trackOffset : ℚ → ℚ)
    (keys : Keys) (st : SimState) (hg : st.gameState = GameState.PLAYING)
    (hyn : ¬ GAME_CONFIG.TRACK_LENGTH ≤ st.player.y) :
    (update rand trackOffset keys st).obstacles =
      (tickGen rand trackOffset st (tickMove st.difficulty keys st.player)).obstacles.filter
        (fun o => decide (o.y > (tickMove st.difficulty keys st.player).y - 1500)) ∧
    (update rand trackOffset keys st).player.x =
      (tickMove st.difficulty keys st.player).x ∧
    (update rand trackOffset keys st).player.y =
      (tickMove st.difficulty keys st.player).y ∧
    (update rand trackOffset keys st).player.speed =
      (tickMove st.difficulty keys st.player).speed ∧
    (update rand trackOffset keys st).player.direction =
      (tickMove st.difficulty keys st.player).direction ∧
    (update rand trackOffset keys st).lastObstacleY =
      (tickGen rand trackOffset st (tickMove st.difficulty keys st.player)).lastObstacleY ∧
    (update rand trackOffset keys st).ridx =
      (tickGen rand trackOffset st (tickMove st.difficulty keys st.player)).ridx ∧
    (update rand trackOffset keys st).difficulty = st.difficulty := by
  have hguard : ¬ st.gameState ≠ GameState.PLAYING := by simp [hg]
  simp only [update, hguard, if_false, ge_iff_le, hyn]
  repeat' split
  all_goals exact ⟨rfl, rfl, rfl, rfl, rfl, rfl, rfl, rfl⟩

/-- Every obstacle present after a tick either predates the tick or was
produced by some `generateObstacles` call on the pre-tick generator state. -/
theorem update_obstacles_from (rand : ℕ → ℚ) (trackOffset : ℚ → ℚ)
    (keys : Keys) (st : SimState) :
    ∀ o ∈ (update rand trackOffset keys st).obstacles,
      o ∈ st.obstacles ∨
      ∃ a b, o ∈ (generateObstacles rand st.difficulty trackOffset a b
        ⟨st.obstacles, st.lastObstacleY, st.ridx⟩).obstacles := by
  intro o ho
  by_cases hg : st.gameState = GameState.PLAYING
  · by_cases hy : GAME_CONFIG.TRACK_LENGTH ≤ st.player.y
    · rw [update_finish rand trackOffset keys st hg hy] at ho
      split at ho
      · exact Or.inl ho
      · exact Or.inl ho
    · rw [(update_normal_fields rand trackOffset keys st hg hy).1] at ho
      have hf := (List.mem_filter.mp ho).1
      unfold tickGen at hf
      split at hf
      · exact Or.inr ⟨_, _, hf⟩
      · exact Or.inl hf
  · rw [update_not_playing rand trackOffset keys st hg] at ho
    exact Or.inl ho

/-- A tick never changes the selected difficulty. -/
theorem update_difficulty (rand : ℕ → ℚ) (trackOffset : ℚ → ℚ)
    (keys : Keys) (st : SimState) :
    (update rand trackOffset keys st).difficulty = st.difficulty := by
  by_cases hg : st.gameState = GameState.PLAYING
  · by_cases hy : GAME_CONFIG.TRACK_LENGTH ≤ st.player.y
    · rw [update_finish rand trackOffset keys st hg hy]
      split
      · rfl
      · rfl
    · exact (update_normal_fields rand trackOffset keys st hg hy).2.2.2.2.2.2.2
  · rw [update_not_playing rand trackOffset keys st hg]

/-- C2 counterexample: the claim "no obstacle ever has y beyond
`TRACK_LENGTH - 300`" fails.  A call reaching the walk position 1700 places a
deep-forest tree at `y = 1700 + rand * 20`; with `rand = 1/2` its y is 1710,
past the cutoff. -/
theorem c2_counterexample :
    ∃ o ∈ (generateObstacles (fun _ => (1:ℚ)/2) Difficulty.EASY (fun _ => 0)
        1700 1701 ⟨[], 0, 0⟩).obstacles,
      GAME_CONFIG.TRACK_LENGTH - 300 < o.y := by
  have h0 : generateObstacles (fun _ => (1:ℚ)/2) Difficulty.EASY (fun _ => 0)
      1700 1701 ⟨[], 0, 0⟩ =
      genLoop (fun _ => (1:ℚ)/2) Difficulty.EASY (fun _ => 0) 1701 1700 ⟨[], 0, 0⟩ := by
    unfold generateObstacles
    congr 1
    dsimp only
    rw [max_eq_left (by norm_num : (0:ℚ) + 40 ≤ 1700)]
  rw [h0, genLoop_eq]
  norm_num [MAX_GEN_Y, GAME_CONFIG.TRACK_LENGTH]
  rw [genLoop_eq]
  norm_num
  refine ⟨⟨1/2, -600, 1710, ObstacleType.TREE, 50, 80⟩, ?_, by norm_num⟩
  simp [genStep, GAME_CONFIG.TRACK_WIDTH]
  norm_num

/-- C2 (amended): across any sequence of generator calls from the initial
state, every obstacle satisfies `y < TRACK_LENGTH - 300 + 20` — deep-forest
trees may overshoot the safe-zone cutoff by their random forward jitter of
less than 20 units — and every on-track hazard (rock or stump) still
satisfies `y ≤ TRACK_LENGTH - 300`. -/
theorem c2_safe_zone_amended (rand : ℕ → ℚ) (hr : ValidRand rand)
    (difficulty : Difficulty) (trackOffset : ℚ → ℚ) (calls : List (ℚ × ℚ)) :
    ∀ o ∈ (applyCalls rand difficulty trackOffset calls ⟨[], 0, 0⟩).obstacles,
      o.y < GAME_CONFIG.TRACK_LENGTH - 300 + 20 ∧
      ((o.type = ObstacleType.ROCK ∨ o.type = ObstacleType.STUMP) →
        o.y ≤ GAME_CONFIG.TRACK_LENGTH - 300) := by
  have hM : MAX_GEN_Y = GAME_CONFIG.TRACK_LENGTH - 300 := rfl
  refine applyCalls_mem_inv rand difficulty trackOffset _ ?_ ?_ calls ⟨[], 0, 0⟩
    (by intro o ho; exact absurd ho (List.not_mem_nil o))
  · intro c o hc ht hy
    rw [hM] at hc
    constructor
    · rcases hy with hy | ⟨k, hy⟩
      · rw [hy]
        linarith
      · have h1 := (hr k).2
        rw [hy]
        linarith
    · intro hcase
      rcases hcase with h | h <;> rw [ht] at h <;> exact absurd h (by simp)
  · intro c o hc _ _ hy _
    rw [hM] at hc
    constructor
    · rw [hy]
      linarith
    · intro _
      rw [hy]
      linarith

/-- Witness for `c2_safe_zone_amended` at the constant stream `1/2`. -/
theorem c2_safe_zone_amended_witness :
    ValidRand (fun _ => (1:ℚ)/2) ∧
    (∀ o ∈ (applyCalls (fun _ => (1:ℚ)/2) Difficulty.EASY (fun _ => 0)
        [(0, 100)] ⟨[], 0, 0⟩).obstacles,
      o.y < GAME_CONFIG.TRACK_LENGTH - 300 + 20 ∧
      ((o.type = ObstacleType.ROCK ∨ o.type = ObstacleType.STUMP) →
        o.y ≤ GAME_CONFIG.TRACK_LENGTH - 300)) :=
  ⟨fun _ => ⟨by norm_num, by norm_num⟩,
   c2_safe_zone_amended (fun _ => (1:ℚ)/2) (fun _ => ⟨by norm_num, by norm_num⟩)
     Difficulty.EASY (fun _ => 0) [(0, 100)]⟩

attribute [irreducible] generateObstacles

/-- Projection of the seeded obstacle collection out of a fresh run state. -/
theorem startGameWith_obstacles (difficulty : Difficulty) (g : GenState) :
    (startGameWith difficulty g).obstacles = g.obstacles := rfl

/-- Projection of the difficulty out of a fresh run state. -/
theorem startGameWith_difficulty (difficulty : Difficulty) (g : GenState) :
    (startGameWith difficulty g).difficulty = difficulty := rfl

/-- The obstacle collection of a fresh run is the one seeded by
`generateObstacles(0, VIEW_DISTANCE)` from the empty state. -/
theorem startGame_obstacles (rand : ℕ → ℚ) (trackOffset : ℚ → ℚ)
    (difficulty : Difficulty) :
    (startGame rand trackOffset difficulty).obstacles =
      (generateObstacles rand difficulty trackOffset 0
        GAME_CONFIG.VIEW_DISTANCE ⟨[], 0, 0⟩).obstacles := by
  rw [startGame, startGameWith_obstacles]

/-- C8: on-track hazards.  (1) An EASY run never holds a rock or stump.
(2) A HARD generation step emits exactly one extra obstacle beyond the four
trees precisely when the hazard draw is below 0.15, and an EASY step never
does.  (3) Every rock or stump ever generated sits within 90 percent of the
track width around the track center: its lateral offset from
`trackOffset y` is at most `(9/10) * TRACK_WIDTH / 2`. -/
theorem c8_on_track_hazards (rand : ℕ → ℚ) (hr : ValidRand rand) :
    (∀ trackOffset ks n,
      ∀ o ∈ (runTicks rand trackOffset ks
          (startGame rand trackOffset Difficulty.EASY) n).obstacles,
        o.type ≠ ObstacleType.ROCK ∧ o.type ≠ ObstacleType.STUMP) ∧
    (∀ difficulty trackOffset currentY obstacles ridx,
      (genStep rand difficulty trackOffset currentY obstacles ridx).1.length =
        obstacles.length +
          (if difficulty = Difficulty.HARD then
            (if rand (ridx + 14) < 15/100 then 5 else 4)
          else 4)) ∧
    (∀ difficulty trackOffset calls,
      ∀ o ∈ (applyCalls rand difficulty trackOffset calls ⟨[], 0, 0⟩).obstacles,
        (o.type = ObstacleType.ROCK ∨ o.type = ObstacleType.STUMP) →
          |o.x - trackOffset o.y| ≤ (9/10) * GAME_CONFIG.TRACK_WIDTH / 2) := by
  refine ⟨?_, ?_, ?_⟩
  · intro trackOffset ks n
    have hgen : ∀ (a b : ℚ) (g : GenState),
        (∀ o ∈ g.obstacles,
          o.type ≠ ObstacleType.ROCK ∧ o.type ≠ ObstacleType.STUMP) →
        ∀ o ∈ (generateObstacles rand Difficulty.EASY trackOffset a b g).obstacles,
          o.type ≠ ObstacleType.ROCK ∧ o.type ≠ ObstacleType.STUMP := by
      intro a b g h0
      refine generateObstacles_mem_inv rand Difficulty.EASY trackOffset _ ?_ ?_ a b g h0
      · intro c o _ ht _
        rw [ht]
        exact ⟨by simp, by simp⟩
      · intro c o _ hd _ _ _
        exact absurd hd (by simp)
    induction n with
    | zero =>
      intro o ho
      rw [runTicks, startGame_obstacles] at ho
      exact hgen 0 GAME_CONFIG.VIEW_DISTANCE ⟨[], 0, 0⟩
        (by intro o ho; exact absurd ho (List.not_mem_nil o)) o ho
    | succ n ih =>
      intro o ho
      have hdn : ∀ m, (runTicks rand trackOffset ks
          (startGame rand trackOffset Difficulty.EASY) m).difficulty = Difficulty.EASY := by
        intro m
        induction m with
        | zero =>
          rw [runTicks, startGame, startGameWith_difficulty]
        | succ m ihm =>
          rw [runTicks, update_difficulty]
          exact ihm
      rw [runTicks] at ho
      rcases update_obstacles_from rand trackOffset (ks n)
          (runTicks rand trackOffset ks (startGame rand trackOffset Difficulty.EASY) n)
          o ho with h | ⟨a, b, h⟩
      · exact ih o h
      · rw [hdn n] at h
        exact hgen a b _ (by intro o' ho'; exact ih o' ho') o h
  · intro difficulty trackOffset currentY obstacles ridx
    by_cases hd : difficulty = Difficulty.HARD
    · by_cases h14 : rand (ridx + 14) < 15/100
      · simp [genStep, hd, h14]
      · simp [genStep, hd, h14]
    · simp [genStep, hd]
  · intro difficulty trackOffset calls
    refine applyCalls_mem_inv rand difficulty trackOffset _ ?_ ?_ calls ⟨[], 0, 0⟩
      (by intro o ho; exact absurd ho (List.not_mem_nil o))
    · intro c o _ ht _ hcase
      rcases hcase with h | h <;> rw [ht] at h <;> exact absurd h (by simp)
    · intro c o _ _ _ hy hx _
      obtain ⟨k, hk⟩ := hx
      have h0 := (hr k).1
      have h1 := (hr k).2
      have h2 : |rand k - 1/2| ≤ 1/2 := abs_le.mpr ⟨by linarith, by linarith⟩
      rw [hy, hk]
      have h3 : trackOffset c + (rand k - 1/2) * (9/10) * GAME_CONFIG.TRACK_WIDTH -
          trackOffset c = (rand k - 1/2) * 720 := by
        rw [GAME_CONFIG.TRACK_WIDTH]
        ring
      rw [h3, abs_mul]
      have h4 : |(720:ℚ)| = 720 := by norm_num
      rw [h4, GAME_CONFIG.TRACK_WIDTH]
      nlinarith [abs_nonneg (rand k - 1/2)]

/-- Witness for `c8_on_track_hazards`: the emission count of one concrete
HARD generation step under the constant stream `1/2`. -/
theorem c8_on_track_hazards_witness :
    ValidRand (fun _ => (1:ℚ)/2) ∧
    (genStep (fun _ => (1:ℚ)/2) Difficulty.HARD (fun _ => 0) 0 [] 0).1.length =
      ([] : List Obstacle).length +
        (if Difficulty.HARD = Difficulty.HARD then
          (if (fun _ => (1:ℚ)/2) (0 + 14) < 15/100 then 5 else 4)
        else 4) :=
  ⟨fun _ => ⟨by norm_num, by norm_num⟩,
   (c8_on_track_hazards (fun _ => (1:ℚ)/2)
      (fun _ => ⟨by norm_num, by norm_num⟩)).2.1 Difficulty.HARD (fun _ => 0) 0 [] 0⟩

/-- C3: the collision check fires for an obstacle exactly when the
longitudinal delta lies in the asymmetric band `(-10, 30)` and the absolute
lateral delta is under half the obstacle width; the cause names the first
matching obstacle's category; the scenario with a tree at `(0, 100)` and the
player at `(0, 100)` yields a cause containing "tree"; the empty collection
yields no collision. -/
theorem c3_collision_check :
    (∀ (px py : ℚ) (l : List Obstacle),
      (findCollision px py l).isSome = true ↔
        ∃ o ∈ l, (-10 < o.y - py ∧ o.y - py < 30) ∧ |o.x - px| < o.width / 2) ∧
    (∀ (px py : ℚ) (o : Obstacle) (rest : List Obstacle),
      ((-10 < o.y - py ∧ o.y - py < 30) ∧ |o.x - px| < o.width / 2) →
      findCollision px py (o :: rest) = some ("Hit a " ++ o.type.toLowerCase)) ∧
    findCollision 0 100 [scenarioTree] = some "Hit a tree" ∧
    strIncludes "Hit a tree" "tree" = true ∧
    findCollision 0 100 [] = none := by
  have hfirst : ∀ (px py : ℚ) (o : Obstacle) (rest : List Obstacle),
      ((-10 < o.y - py ∧ o.y - py < 30) ∧ |o.x - px| < o.width / 2) →
      findCollision px py (o :: rest) = some ("Hit a " ++ o.type.toLowerCase) := by
    intro px py o rest h
    simp [findCollision, h]
  refine ⟨?_, hfirst, ?_, ?_, rfl⟩
  · intro px py l
    induction l with
    | nil => simp [findCollision]
    | cons o rest ih =>
      by_cases h : ((-10 < o.y - py ∧ o.y - py < 30) ∧ |o.x - px| < o.width / 2)
      · simp only [findCollision]
        rw [if_pos h]
        simp only [Option.isSome_some, true_iff]
        exact ⟨o, List.mem_cons_self o rest, h⟩
      · simp only [findCollision]
        rw [if_neg h, ih]
        constructor
        · rintro ⟨o', ho', hcond⟩
          exact ⟨o', List.mem_cons_of_mem o ho', hcond⟩
        · rintro ⟨o', ho', hcond⟩
          rcases List.mem_cons.mp ho' with he | hm
          · exact absurd (he ▸ hcond) h
          · exact ⟨o', hm, hcond⟩
  · rw [hfirst 0 100 scenarioTree [] (by norm_num [scenarioTree])]
    rfl
  · decide

/-- Witness for `c3_collision_check`: the first-match clause applied to the
scenario tree. -/
theorem c3_collision_check_witness :
    (((-10:ℚ) < scenarioTree.y - 100 ∧ scenarioTree.y - 100 < 30) ∧
      |scenarioTree.x - 0| < scenarioTree.width / 2) ∧
    findCollision 0 100 (scenarioTree :: []) =
      some ("Hit a " ++ scenarioTree.type.toLowerCase) :=
  ⟨by norm_num [scenarioTree],
   c3_collision_check.2.1 0 100 scenarioTree []
     (by norm_num [scenarioTree])⟩

/-- One tick keeps the steering direction inside the symmetric clamp range:
outside PLAYING and in the finish branch it is untouched, and the normal
branch clamps it to `[-3/2, 3/2]`. -/
theorem update_direction_abs (rand : ℕ → ℚ) (trackOffset : ℚ → ℚ)
    (keys : Keys) (st : SimState) (h : |st.player.direction| ≤ 3/2) :
    |(update rand trackOffset keys st).player.direction| ≤ 3/2 := by
  by_cases hg : st.gameState = GameState.PLAYING
  · by_cases hy : GAME_CONFIG.TRACK_LENGTH ≤ st.player.y
    · rw [update_finish rand trackOffset keys st hg hy]
      split
      · simpa using h
      · simpa using h
    · rw [(update_normal_fields rand trackOffset keys st hg hy).2.2.2.2.1]
      unfold tickMove
      dsimp only
      rw [abs_le]
      constructor
      · exact le_max_left _ _
      · exact max_le (by norm_num) (min_le_left _ _)
  · rw [update_not_playing rand trackOffset keys st hg]
    exact h

/-- The fresh run state has steering direction zero. -/
theorem startGameWith_player (difficulty : Difficulty) (g : GenState) :
    (startGameWith difficulty g).player = ⟨0, 0, 0, 0, PlayerPhase.skiing⟩ := rfl

/-- C5: from the run-start reset, under any key sequence, the steering
direction stays within the symmetric clamp range `[-3/2, 3/2]` after every
tick. -/
theorem c5_direction_clamped (rand : ℕ → ℚ) (trackOffset : ℚ → ℚ)
    (difficulty : Difficulty) (ks : ℕ → Keys) (n : ℕ) :
    |(runTicks rand trackOffset ks (startGame rand trackOffset difficulty)
        n).player.direction| ≤ 3/2 := by
  induction n with
  | zero =>
    rw [runTicks, startGame, startGameWith_player]
    norm_num
  | succ n ih =>
    rw [runTicks]
    exact update_direction_abs _ _ _ _ ih

/-- C6: after the culling step of a PLAYING tick short of the finish, every
remaining obstacle is less than the cull window 1500 behind the player's
updated position. -/
theorem c6_cull_window (rand : ℕ → ℚ) (trackOffset : ℚ → ℚ) (keys : Keys)
    (st : SimState) (hg : st.gameState = GameState.PLAYING)
    (hy : st.player.y < GAME_CONFIG.TRACK_LENGTH) :
    ∀ o ∈ (update rand trackOffset keys st).obstacles,
      o.y > (update rand trackOffset keys st).player.y - 1500 := by
  have hyn : ¬ GAME_CONFIG.TRACK_LENGTH ≤ st.player.y := not_le.mpr hy
  intro o ho
  rw [(update_normal_fields rand trackOffset keys st hg hyn).1] at ho
  rw [(update_normal_fields rand trackOffset keys st hg hyn).2.2.1]
  exact of_decide_eq_true (List.mem_filter.mp ho).2

/-- Witness for `c6_cull_window`: a concrete PLAYING state whose frontier is
already ahead, with one obstacle behind and one ahead of the player. -/
theorem c6_cull_window_witness :
    ((⟨GameState.PLAYING, Difficulty.HARD, ⟨0, 0, 0, 0, PlayerPhase.skiing⟩,
        [⟨7, 0, -2000, ObstacleType.TREE, 50, 80⟩,
         ⟨8, 300, 100, ObstacleType.TREE, 50, 80⟩], 1600,
        ⟨false, 0, -1000, 0⟩, false, 0, none, 0⟩ : SimState).gameState =
          GameState.PLAYING ∧
      (⟨GameState.PLAYING, Difficulty.HARD, ⟨0, 0, 0, 0, PlayerPhase.skiing⟩,
        [⟨7, 0, -2000, ObstacleType.TREE, 50, 80⟩,
         ⟨8, 300, 100, ObstacleType.TREE, 50, 80⟩], 1600,
        ⟨false, 0, -1000, 0⟩, false, 0, none, 0⟩ : SimState).player.y <
          GAME_CONFIG.TRACK_LENGTH) ∧
    (∀ o ∈ (update (fun _ => 0) (fun _ => 0) ⟨false, false, false⟩
        ⟨GameState.PLAYING, Difficulty.HARD, ⟨0, 0, 0, 0, PlayerPhase.skiing⟩,
          [⟨7, 0, -2000, ObstacleType.TREE, 50, 80⟩,
           ⟨8, 300, 100, ObstacleType.TREE, 50, 80⟩], 1600,
          ⟨false, 0, -1000, 0⟩, false, 0, none, 0⟩).obstacles,
      o.y > (update (fun _ => 0) (fun _ => 0) ⟨false, false, false⟩
        ⟨GameState.PLAYING, Difficulty.HARD, ⟨0, 0, 0, 0, PlayerPhase.skiing⟩,
          [⟨7, 0, -2000, ObstacleType.TREE, 50, 80⟩,
           ⟨8, 300, 100, ObstacleType.TREE, 50, 80⟩], 1600,
          ⟨false, 0, -1000, 0⟩, false, 0, none, 0⟩).player.y - 1500) :=
  ⟨⟨rfl, by norm_num [GAME_CONFIG.TRACK_LENGTH]⟩,
   c6_cull_window (fun _ => 0) (fun _ => 0) ⟨false, false, false⟩
     ⟨GameState.PLAYING, Difficulty.HARD, ⟨0, 0, 0, 0, PlayerPhase.skiing⟩,
       [⟨7, 0, -2000, ObstacleType.TREE, 50, 80⟩,
        ⟨8, 300, 100, ObstacleType.TREE, 50, 80⟩], 1600,
       ⟨false, 0, -1000, 0⟩, false, 0, none, 0⟩ rfl (by norm_num [GAME_CONFIG.TRACK_LENGTH])⟩

/-- The physics step advances the longitudinal position by at most the
current speed plus the acceleration increment. -/
theorem tickMove_y_le (difficulty : Difficulty) (keys : Keys) (p : Player) :
    (tickMove difficulty keys p).y ≤ p.y + p.speed + GAME_CONFIG.ACCELERATION := by
  simp only [tickMove, GAME_CONFIG.ACCELERATION]
  repeat' split
  all_goals linarith

/-- While the Yeti is already active and no collision fires, the tick moves
the Yeti forward by the updated player speed plus the difficulty bonus. -/
theorem update_yeti_move (rand : ℕ → ℚ) (trackOffset : ℚ → ℚ) (keys : Keys)
    (st : SimState) (hg : st.gameState = GameState.PLAYING)
    (hyn : ¬ st.player.y ≥ GAME_CONFIG.TRACK_LENGTH)
    (hactive : st.yeti.active = true)
    (hnc : findCollision (tickMove st.difficulty keys st.player).x
      (tickMove st.difficulty keys st.player).y
      ((tickGen rand trackOffset st
          (tickMove st.difficulty keys st.player)).obstacles.filter
        (fun o => decide (o.y > (tickMove st.difficulty keys st.player).y - 1500))) =
      none) :
    (update rand trackOffset keys st).yeti.y =
      st.yeti.y + ((tickMove st.difficulty keys st.player).speed +
        (if st.difficulty = Difficulty.EASY then (2:ℚ)/10 else 6/10)) := by
  have hguard : ¬ st.gameState ≠ GameState.PLAYING := by simp [hg]
  simp only [update, hguard, if_false, hyn]
  rw [hnc]
  simp only [hactive, Bool.true_eq_false, and_false, if_false, if_true]
  repeat' split
  all_goals rfl

/-- C7 (amended): while PLAYING short of the finish, with the Yeti already
active, difficulty HARD, an empty obstacle collection and the generation
frontier beyond the reachable view horizon, one tick advances the Yeti's y
by exactly the player's updated speed for that tick plus 0.6 — the bonus is
added to the speed as updated this tick (including the 0.1 acceleration),
not to the speed at the start of the tick. -/
theorem c7_yeti_speed_amended (rand : ℕ → ℚ) (trackOffset : ℚ → ℚ)
    (keys : Keys) (st : SimState)
    (hg : st.gameState = GameState.PLAYING)
    (hy : st.player.y < GAME_CONFIG.TRACK_LENGTH)
    (hactive : st.yeti.active = true)
    (hd : st.difficulty = Difficulty.HARD)
    (hobs : st.obstacles = [])
    (hfar : st.player.y + st.player.speed + GAME_CONFIG.ACCELERATION +
      GAME_CONFIG.VIEW_DISTANCE ≤ st.lastObstacleY) :
    (update rand trackOffset keys st).yeti.y =
      st.yeti.y + ((update rand trackOffset keys st).player.speed + 6/10) := by
  have hyn : ¬ st.player.y ≥ GAME_CONFIG.TRACK_LENGTH := not_le.mpr hy
  have hnogen : ¬ st.lastObstacleY <
      (tickMove st.difficulty keys st.player).y + GAME_CONFIG.VIEW_DISTANCE := by
    have hb := tickMove_y_le st.difficulty keys st.player
    rw [not_lt]
    linarith
  have hgen : tickGen rand trackOffset st (tickMove st.difficulty keys st.player) =
      ⟨st.obstacles, st.lastObstacleY, st.ridx⟩ := by
    unfold tickGen
    rw [if_neg hnogen]
  have hnc : findCollision (tickMove st.difficulty keys st.player).x
      (tickMove st.difficulty keys st.player).y
      ((tickGen rand trackOffset st
          (tickMove st.difficulty keys st.player)).obstacles.filter
        (fun o => decide (o.y > (tickMove st.difficulty keys st.player).y - 1500))) =
      none := by
    rw [hgen, hobs]
    rfl
  rw [update_yeti_move rand trackOffset keys st hg hyn hactive hnc,
    (update_normal_fields rand trackOffset keys st hg hyn).2.2.2.1]
  rw [hd]
  simp

/-- C7 counterexample: at the claimed scenario (agent active, player speed 5,
difficulty HARD), the tick advances the agent by 5.7, not 5.6, because the
bonus 0.6 is added to the already-updated speed 5.1. -/
theorem c7_counterexample :
    (update (fun _ => 0) (fun _ => 0) ⟨false, false, false⟩
        ⟨GameState.PLAYING, Difficulty.HARD, ⟨0, 1000, 5, 0, PlayerPhase.skiing⟩,
         [], 2600, ⟨true, 0, 0, 0⟩, false, 0, none, 0⟩).yeti.y =
      0 + (57/10 : ℚ) ∧
    ¬ ((0 + (57/10 : ℚ)) = 0 + ((5:ℚ) + 6/10)) := by
  constructor
  · have hyn : ¬ (⟨GameState.PLAYING, Difficulty.HARD,
        ⟨0, 1000, 5, 0, PlayerPhase.skiing⟩, [], 2600, ⟨true, 0, 0, 0⟩,
        false, 0, none, 0⟩ : SimState).player.y ≥ GAME_CONFIG.TRACK_LENGTH := by
      norm_num [GAME_CONFIG.TRACK_LENGTH]
    have hnogen : ¬ (⟨GameState.PLAYING, Difficulty.HARD,
        ⟨0, 1000, 5, 0, PlayerPhase.skiing⟩, [], 2600, ⟨true, 0, 0, 0⟩,
        false, 0, none, 0⟩ : SimState).lastObstacleY <
        (tickMove Difficulty.HARD ⟨false, false, false⟩
          ⟨0, 1000, 5, 0, PlayerPhase.skiing⟩).y + GAME_CONFIG.VIEW_DISTANCE := by
      have hb := tickMove_y_le Difficulty.HARD ⟨false, false, false⟩
        ⟨0, 1000, 5, 0, PlayerPhase.skiing⟩
      rw [not_lt]
      norm_num [GAME_CONFIG.ACCELERATION, GAME_CONFIG.VIEW_DISTANCE] at hb ⊢
      linarith
    have hgen : tickGen (fun _ => 0) (fun _ => 0)
        ⟨GameState.PLAYING, Difficulty.HARD, ⟨0, 1000, 5, 0, PlayerPhase.skiing⟩,
          [], 2600, ⟨true, 0, 0, 0⟩, false, 0, none, 0⟩
        (tickMove Difficulty.HARD ⟨false, false, false⟩
          ⟨0, 1000, 5, 0, PlayerPhase.skiing⟩) =
        ⟨[], 2600, 0⟩ := by
      unfold tickGen
      rw [if_neg hnogen]
    have hnc : findCollision
        (tickMove Difficulty.HARD ⟨false, false, false⟩
          ⟨0, 1000, 5, 0, PlayerPhase.skiing⟩).x
        (tickMove Difficulty.HARD ⟨false, false, false⟩
          ⟨0, 1000, 5, 0, PlayerPhase.skiing⟩).y
        ((tickGen (fun _ => 0) (fun _ => 0)
            ⟨GameState.PLAYING, Difficulty.HARD, ⟨0, 1000, 5, 0, PlayerPhase.skiing⟩,
              [], 2600, ⟨true, 0, 0, 0⟩, false, 0, none, 0⟩
            (tickMove Difficulty.HARD ⟨false, false, false⟩
              ⟨0, 1000, 5, 0, PlayerPhase.skiing⟩)).obstacles.filter
          (fun o => decide (o.y >
            (tickMove Difficulty.HARD ⟨false, false, false⟩
              ⟨0, 1000, 5, 0, PlayerPhase.skiing⟩).y - 1500))) = none := by
      rw [hgen]
      rfl
    rw [update_yeti_move (fun _ => 0) (fun _ => 0) ⟨false, false, false⟩
      ⟨GameState.PLAYING, Difficulty.HARD, ⟨0, 1000, 5, 0, PlayerPhase.skiing⟩,
        [], 2600, ⟨true, 0, 0, 0⟩, false, 0, none, 0⟩
      rfl hyn rfl hnc]
    norm_num [tickMove, GAME_CONFIG.MAX_SPEED, GAME_CONFIG.ACCELERATION]
    rw [if_neg (show ¬ Difficulty.HARD = Difficulty.EASY from by simp)]
    rw [if_neg (show ¬ Difficulty.HARD = Difficulty.EASY from by simp)]
    norm_num
  · norm_num

/-- Witness for `c7_yeti_speed_amended` at the scenario state. -/
theorem c7_yeti_speed_amended_witness :
    ((⟨GameState.PLAYING, Difficulty.HARD, ⟨0, 1000, 5, 0, PlayerPhase.skiing⟩,
        [], 2600, ⟨true, 0, 0, 0⟩, false, 0, none, 0⟩ : SimState).gameState =
          GameState.PLAYING ∧
      (⟨GameState.PLAYING, Difficulty.HARD, ⟨0, 1000, 5, 0, PlayerPhase.skiing⟩,
        [], 2600, ⟨true, 0, 0, 0⟩, false, 0, none, 0⟩ : SimState).player.y <
          GAME_CONFIG.TRACK_LENGTH) ∧
    (update (fun _ => 0) (fun _ => 0) ⟨false, false, false⟩
        ⟨GameState.PLAYING, Difficulty.HARD, ⟨0, 1000, 5, 0, PlayerPhase.skiing⟩,
          [], 2600, ⟨true, 0, 0, 0⟩, false, 0, none, 0⟩).yeti.y =
      (⟨GameState.PLAYING, Difficulty.HARD, ⟨0, 1000, 5, 0, PlayerPhase.skiing⟩,
        [], 2600, ⟨true, 0, 0, 0⟩, false, 0, none, 0⟩ : SimState).yeti.y +
        ((update (fun _ => 0) (fun _ => 0) ⟨false, false, false⟩
          ⟨GameState.PLAYING, Difficulty.HARD, ⟨0, 1000, 5, 0, PlayerPhase.skiing⟩,
            [], 2600, ⟨true, 0, 0, 0⟩, false, 0, none, 0⟩).player.speed + 6/10) :=
  ⟨⟨rfl, by norm_num [GAME_CONFIG.TRACK_LENGTH]⟩,
   c7_yeti_speed_amended (fun _ => 0) (fun _ => 0) ⟨false, false, false⟩
     ⟨GameState.PLAYING, Difficulty.HARD, ⟨0, 1000, 5, 0, PlayerPhase.skiing⟩,
       [], 2600, ⟨true, 0, 0, 0⟩, false, 0, none, 0⟩
     rfl (by norm_num [GAME_CONFIG.TRACK_LENGTH]) rfl rfl rfl
     (by norm_num [GAME_CONFIG.ACCELERATION, GAME_CONFIG.VIEW_DISTANCE])⟩

/-- C10: once a PLAYING run has reached the track length (with nonnegative
speed), every later tick returns from the finish branch before collision
detection and Yeti logic: the phase is always PLAYING or VICTORY and never
GAME_OVER, the obstacle collection and the Yeti state stay frozen, and the
recorded crash cause is never set (it keeps its value or is cleared by the
victory transition). -/
theorem c10_finish_no_game_over (rand : ℕ → ℚ) (trackOffset : ℚ → ℚ)
    (ks : ℕ → Keys) (st : SimState)
    (hg : st.gameState = GameState.PLAYING)
    (hy : GAME_CONFIG.TRACK_LENGTH ≤ st.player.y)
    (hs : 0 ≤ st.player.speed) :
    ∀ n, ((runTicks rand trackOffset ks st n).gameState = GameState.PLAYING ∨
          (runTicks rand trackOffset ks st n).gameState = GameState.VICTORY) ∧
      (runTicks rand trackOffset ks st n).gameState ≠ GameState.GAME_OVER ∧
      (runTicks rand trackOffset ks st n).obstacles = st.obstacles ∧
      (runTicks rand trackOffset ks st n).yeti = st.yeti ∧
      ((runTicks rand trackOffset ks st n).causeOfDeath = st.causeOfDeath ∨
        (runTicks rand trackOffset ks st n).causeOfDeath = none) := by
  have main : ∀ n,
      ((runTicks rand trackOffset ks st n).gameState = GameState.PLAYING ∧
        GAME_CONFIG.TRACK_LENGTH ≤ (runTicks rand trackOffset ks st n).player.y ∧
        0 ≤ (runTicks rand trackOffset ks st n).player.speed ∨
       (runTicks rand trackOffset ks st n).gameState = GameState.VICTORY) ∧
      (runTicks rand trackOffset ks st n).obstacles = st.obstacles ∧
      (runTicks rand trackOffset ks st n).yeti = st.yeti ∧
      ((runTicks rand trackOffset ks st n).causeOfDeath = st.causeOfDeath ∨
        (runTicks rand trackOffset ks st n).causeOfDeath = none) := by
    intro n
    induction n with
    | zero =>
      exact ⟨Or.inl ⟨hg, hy, hs⟩, rfl, rfl, Or.inl rfl⟩
    | succ n ih =>
      obtain ⟨hcase, hobs, hyeti, hcause⟩ := ih
      rcases hcase with ⟨hP, hY, hS⟩ | hV
      · rw [runTicks, update_finish rand trackOffset (ks n) _ hP hY]
        have hS2 : 0 ≤ (runTicks rand trackOffset ks st n).player.speed * (85/100) :=
          mul_nonneg hS (by norm_num)
        split
        · exact ⟨Or.inr rfl, hobs, hyeti, Or.inr rfl⟩
        · refine ⟨Or.inl ⟨hP, ?_, hS2⟩, hobs, hyeti, hcause⟩
          show GAME_CONFIG.TRACK_LENGTH ≤
            (runTicks rand trackOffset ks st n).player.y +
              (runTicks rand trackOffset ks st n).player.speed * (85/100)
          linarith
      · rw [runTicks, update_not_playing rand trackOffset (ks n) _ (by rw [hV]; simp)]
        exact ⟨Or.inr hV, hobs, hyeti, hcause⟩
  intro n
  obtain ⟨hcase, hobs, hyeti, hcause⟩ := main n
  refine ⟨?_, ?_, hobs, hyeti, hcause⟩
  · rcases hcase with ⟨hP, _, _⟩ | hV
    · exact Or.inl hP
    · exact Or.inr hV
  · rcases hcase with ⟨hP, _, _⟩ | hV
    · rw [hP]
      simp
    · rw [hV]
      simp

/-- Witness for `c10_finish_no_game_over`: a concrete finished state,
observed at tick 3. -/
theorem c10_finish_no_game_over_witness :
    ((⟨GameState.PLAYING, Difficulty.EASY, ⟨0, 2500, 1, 0, PlayerPhase.skiing⟩,
        [⟨9, 0, 2400, ObstacleType.TREE, 50, 80⟩], 1700,
        ⟨false, 0, -1000, 0⟩, false, 0, none, 0⟩ : SimState).gameState =
          GameState.PLAYING ∧
      GAME_CONFIG.TRACK_LENGTH ≤
        (⟨GameState.PLAYING, Difficulty.EASY, ⟨0, 2500, 1, 0, PlayerPhase.skiing⟩,
          [⟨9, 0, 2400, ObstacleType.TREE, 50, 80⟩], 1700,
          ⟨false, 0, -1000, 0⟩, false, 0, none, 0⟩ : SimState).player.y ∧
      (0:ℚ) ≤ (⟨GameState.PLAYING, Difficulty.EASY, ⟨0, 2500, 1, 0, PlayerPhase.skiing⟩,
          [⟨9, 0, 2400, ObstacleType.TREE, 50, 80⟩], 1700,
          ⟨false, 0, -1000, 0⟩, false, 0, none, 0⟩ : SimState).player.speed) ∧
    (runTicks (fun _ => 0) (fun _ => 0) (fun _ => ⟨false, false, false⟩)
        ⟨GameState.PLAYING, Difficulty.EASY, ⟨0, 2500, 1, 0, PlayerPhase.skiing⟩,
          [⟨9, 0, 2400, ObstacleType.TREE, 50, 80⟩], 1700,
          ⟨false, 0, -1000, 0⟩, false, 0, none, 0⟩ 3).gameState ≠
      GameState.GAME_OVER :=
  ⟨⟨rfl, by norm_num [GAME_CONFIG.TRACK_LENGTH], by norm_num⟩,
   (c10_finish_no_game_over (fun _ => 0) (fun _ => 0) (fun _ => ⟨false, false, false⟩)
     ⟨GameState.PLAYING, Difficulty.EASY, ⟨0, 2500, 1, 0, PlayerPhase.skiing⟩,
       [⟨9, 0, 2400, ObstacleType.TREE, 50, 80⟩], 1700,
       ⟨false, 0, -1000, 0⟩, false, 0, none, 0⟩
     rfl (by norm_num [GAME_CONFIG.TRACK_LENGTH]) (by norm_num) 3).2.1⟩

/-- C4: from a PLAYING state at or past the track length with positive
speed, there is a tick count n (at least one) such that before n the run is
still PLAYING with speed decayed by the factor 0.85 each tick, from n on the
run is VICTORY with speed forced to zero — so the transition happens exactly
once — and during the deceleration ticks steering still moves the player
laterally with the reduced authority factor BASE_SPEED * 0.5. -/
theorem c4_finish_deceleration (rand : ℕ → ℚ) (trackOffset : ℚ → ℚ)
    (ks : ℕ → Keys) (st : SimState)
    (hg : st.gameState = GameState.PLAYING)
    (hy : GAME_CONFIG.TRACK_LENGTH ≤ st.player.y)
    (hs : 0 < st.player.speed) :
    ∃ n, 0 < n ∧
      (∀ m, m < n →
        (runTicks rand trackOffset ks st m).gameState = GameState.PLAYING ∧
        (runTicks rand trackOffset ks st m).player.speed =
          st.player.speed * (85/100) ^ m) ∧
      (∀ m, n ≤ m →
        (runTicks rand trackOffset ks st m).gameState = GameState.VICTORY ∧
        (runTicks rand trackOffset ks st m).player.speed = 0) ∧
      (∀ m, m < n →
        (runTicks rand trackOffset ks st (m+1)).player.x =
          (runTicks rand trackOffset ks st m).player.x +
            (runTicks rand trackOffset ks st m).player.direction *
              GAME_CONFIG.BASE_SPEED * (1/2)) := by
  have hex : ∃ m : ℕ, st.player.speed * (85/100) ^ m < 3/2 := by
    obtain ⟨m, hm⟩ := exists_pow_lt_of_lt_one
      (show (0:ℚ) < (3/2) / st.player.speed by positivity)
      (show (85:ℚ)/100 < 1 by norm_num)
    refine ⟨m, ?_⟩
    have h2 := (lt_div_iff₀ hs).mp hm
    linarith
  classical
  set n0 := Nat.find hex with hn0
  set n := max n0 1 with hn
  have hn1 : 1 ≤ n := le_max_right _ _
  have hspec : st.player.speed * (85/100) ^ n0 < 3/2 := Nat.find_spec hex
  have hmin : ∀ m, m < n0 → ¬ st.player.speed * (85/100) ^ m < 3/2 :=
    fun m hm => Nat.find_min hex hm
  have hqn : st.player.speed * (85/100) ^ n < 3/2 := by
    rcases Nat.lt_or_ge n0 1 with h01 | h01
    · have hz : n0 = 0 := by omega
      have hone : n = 1 := by omega
      rw [hz, pow_zero, mul_one] at hspec
      rw [hone, pow_one]
      nlinarith
    · have heq : n = n0 := by omega
      rw [heq]
      exact hspec
  have main : ∀ m,
      (m < n →
        (runTicks rand trackOffset ks st m).gameState = GameState.PLAYING ∧
        (runTicks rand trackOffset ks st m).player.speed =
          st.player.speed * (85/100) ^ m ∧
        GAME_CONFIG.TRACK_LENGTH ≤ (runTicks rand trackOffset ks st m).player.y) ∧
      (n ≤ m →
        (runTicks rand trackOffset ks st m).gameState = GameState.VICTORY ∧
        (runTicks rand trackOffset ks st m).player.speed = 0) := by
    intro m
    induction m with
    | zero =>
      constructor
      · intro _
        exact ⟨hg, by rw [pow_zero, mul_one]; rfl, hy⟩
      · intro h0
        exact absurd h0 (by omega)
    | succ m ih =>
      constructor
      · intro hlt
        obtain ⟨hP, hS, hY⟩ := ih.1 (by omega)
        have hcond : ¬ (runTicks rand trackOffset ks st m).player.speed * (85/100) < 3/2 := by
          rw [hS]
          have hmlt : m + 1 < n0 := by omega
          have := hmin (m+1) hmlt
          rw [pow_succ, ← mul_assoc] at this
          exact this
        rw [runTicks, update_finish rand trackOffset (ks m) _ hP hY, if_neg hcond]
        refine ⟨hP, ?_, ?_⟩
        · show (runTicks rand trackOffset ks st m).player.speed * (85/100) =
            st.player.speed * (85/100) ^ (m+1)
          rw [hS, pow_succ, mul_assoc]
        · show GAME_CONFIG.TRACK_LENGTH ≤
            (runTicks rand trackOffset ks st m).player.y +
              (runTicks rand trackOffset ks st m).player.speed * (85/100)
          have hpos : 0 ≤ (runTicks rand trackOffset ks st m).player.speed * (85/100) := by
            rw [hS]
            positivity
          linarith
      · intro hge
        by_cases hcase : n ≤ m
        · obtain ⟨hV, hZ⟩ := ih.2 hcase
          rw [runTicks, update_not_playing rand trackOffset (ks m) _ (by rw [hV]; simp)]
          exact ⟨hV, hZ⟩
        · have hm1 : m + 1 = n := by omega
          obtain ⟨hP, hS, hY⟩ := ih.1 (by omega)
          have hcond : (runTicks rand trackOffset ks st m).player.speed * (85/100) < 3/2 := by
            rw [hS]
            have := hqn
            rw [← hm1, pow_succ, ← mul_assoc] at this
            exact this
          rw [runTicks, update_finish rand trackOffset (ks m) _ hP hY, if_pos hcond]
          exact ⟨rfl, rfl⟩
  refine ⟨n, by omega, ?_, ?_, ?_⟩
  · intro m hm
    exact ⟨((main m).1 hm).1, ((main m).1 hm).2.1⟩
  · intro m hm
    exact (main m).2 hm
  · intro m hm
    obtain ⟨hP, hS, hY⟩ := (main m).1 hm
    rw [runTicks, update_finish rand trackOffset (ks m) _ hP hY]
    split
    · rfl
    · rfl

/-- Witness for `c4_finish_deceleration`: a concrete state at the finish
line with speed 5. -/
theorem c4_finish_deceleration_witness :
    ((⟨GameState.PLAYING, Difficulty.HARD, ⟨0, 2000, 5, 1, PlayerPhase.skiing⟩,
        [], 1700, ⟨false, 0, -1000, 0⟩, false, 0, none, 0⟩ : SimState).gameState =
          GameState.PLAYING ∧
      GAME_CONFIG.TRACK_LENGTH ≤
        (⟨GameState.PLAYING, Difficulty.HARD, ⟨0, 2000, 5, 1, PlayerPhase.skiing⟩,
          [], 1700, ⟨false, 0, -1000, 0⟩, false, 0, none, 0⟩ : SimState).player.y ∧
      (0:ℚ) < (⟨GameState.PLAYING, Difficulty.HARD, ⟨0, 2000, 5, 1, PlayerPhase.skiing⟩,
          [], 1700, ⟨false, 0, -1000, 0⟩, false, 0, none, 0⟩ : SimState).player.speed) ∧
    (∃ n, 0 < n ∧
      (∀ m, m < n →
        (runTicks (fun _ => 0) (fun _ => 0) (fun _ => ⟨true, false, false⟩)
          ⟨GameState.PLAYING, Difficulty.HARD, ⟨0, 2000, 5, 1, PlayerPhase.skiing⟩,
            [], 1700, ⟨false, 0, -1000, 0⟩, false, 0, none, 0⟩ m).gameState =
              GameState.PLAYING ∧
        (runTicks (fun _ => 0) (fun _ => 0) (fun _ => ⟨true, false, false⟩)
          ⟨GameState.PLAYING, Difficulty.HARD, ⟨0, 2000, 5, 1, PlayerPhase.skiing⟩,
            [], 1700, ⟨false, 0, -1000, 0⟩, false, 0, none, 0⟩ m).player.speed =
          (⟨GameState.PLAYING, Difficulty.HARD, ⟨0, 2000, 5, 1, PlayerPhase.skiing⟩,
            [], 1700, ⟨false, 0, -1000, 0⟩, false, 0, none, 0⟩ : SimState).player.speed *
            (85/100) ^ m) ∧
      (∀ m, n ≤ m →
        (runTicks (fun _ => 0) (fun _ => 0) (fun _ => ⟨true, false, false⟩)
          ⟨GameState.PLAYING, Difficulty.HARD, ⟨0, 2000, 5, 1, PlayerPhase.skiing⟩,
            [], 1700, ⟨false, 0, -1000, 0⟩, false, 0, none, 0⟩ m).gameState =
              GameState.VICTORY ∧
        (runTicks (fun _ => 0) (fun _ => 0) (fun _ => ⟨true, false, false⟩)
          ⟨GameState.PLAYING, Difficulty.HARD, ⟨0, 2000, 5, 1, PlayerPhase.skiing⟩,
            [], 1700, ⟨false, 0, -1000, 0⟩, false, 0, none, 0⟩ m).player.speed = 0) ∧
      (∀ m, m < n →
        (runTicks (fun _ => 0) (fun _ => 0) (fun _ => ⟨true, false, false⟩)
          ⟨GameState.PLAYING, Difficulty.HARD, ⟨0, 2000, 5, 1, PlayerPhase.skiing⟩,
            [], 1700, ⟨false, 0, -1000, 0⟩, false, 0, none, 0⟩ (m+1)).player.x =
          (runTicks (fun _ => 0) (fun _ => 0) (fun _ => ⟨true, false, false⟩)
            ⟨GameState.PLAYING, Difficulty.HARD, ⟨0, 2000, 5, 1, PlayerPhase.skiing⟩,
              [], 1700, ⟨false, 0, -1000, 0⟩, false, 0, none, 0⟩ m).player.x +
            (runTicks (fun _ => 0) (fun _ => 0) (fun _ => ⟨true, false, false⟩)
              ⟨GameState.PLAYING, Difficulty.HARD, ⟨0, 2000, 5, 1, PlayerPhase.skiing⟩,
                [], 1700, ⟨false, 0, -1000, 0⟩, false, 0, none, 0⟩ m).player.direction *
              GAME_CONFIG.BASE_SPEED * (1/2))) :=
  ⟨⟨rfl, by norm_num [GAME_CONFIG.TRACK_LENGTH], by norm_num⟩,
   c4_finish_deceleration (fun _ => 0) (fun _ => 0) (fun _ => ⟨true, false, false⟩)
     ⟨GameState.PLAYING, Difficulty.HARD, ⟨0, 2000, 5, 1, PlayerPhase.skiing⟩,
       [], 1700, ⟨false, 0, -1000, 0⟩, false, 0, none, 0⟩
     rfl (by norm_num [GAME_CONFIG.TRACK_LENGTH]) (by norm_num)⟩

/-- C9 (amended): the commentary generator is deterministic and
cause-matched: any cause containing "yeti" (case-insensitively) yields the
fixed yeti-themed tip regardless of the random draw, and any cause
containing "tree" but not "yeti" yields the fixed tree-themed tip — the yeti
check takes precedence when both substrings occur. -/
theorem c9_commentary_amended :
    (∀ (r1 r2 : ℚ) (s : GameStats) (c : String),
      s.causeOfDeath = some c →
      strIncludes (strToLower c) "yeti" = true →
      getSkiCoachCommentary r1 s =
        "The Yeti just wants a hug. A very fast, aggressive hug." ∧
      getSkiCoachCommentary r1 s = getSkiCoachCommentary r2 s) ∧
    (∀ (r1 r2 : ℚ) (s : GameStats) (c : String),
      s.causeOfDeath = some c →
      strIncludes (strToLower c) "tree" = true →
      strIncludes (strToLower c) "yeti" = false →
      getSkiCoachCommentary r1 s =
        "Trees are strictly stationary objects. Try avoiding them." ∧
      getSkiCoachCommentary r1 s = getSkiCoachCommentary r2 s) := by
  constructor
  · intro r1 r2 s c hc hyeti
    have h1 : ∀ r : ℚ, getSkiCoachCommentary r s =
        "The Yeti just wants a hug. A very fast, aggressive hug." := by
      intro r
      unfold getSkiCoachCommentary
      rw [hc]
      simp [hyeti]
    exact ⟨h1 r1, by rw [h1 r1, h1 r2]⟩
  · intro r1 r2 s c hc htree hyeti
    have h1 : ∀ r : ℚ, getSkiCoachCommentary r s =
        "Trees are strictly stationary objects. Try avoiding them." := by
      intro r
      unfold getSkiCoachCommentary
      rw [hc]
      simp [htree, hyeti]
    exact ⟨h1 r1, by rw [h1 r1, h1 r2]⟩

/-- C9 counterexample: a cause containing both substrings, such as
"yeti tree", contains "tree" but is answered with the yeti-themed tip, not
the tree-themed one. -/
theorem c9_counterexample :
    strIncludes (strToLower "yeti tree") "tree" = true ∧
    getSkiCoachCommentary 0 ⟨0, 0, 0, some "yeti tree"⟩ =
      "The Yeti just wants a hug. A very fast, aggressive hug." ∧
    getSkiCoachCommentary 0 ⟨0, 0, 0, some "yeti tree"⟩ ≠
      "Trees are strictly stationary objects. Try avoiding them." := by
  refine ⟨by decide, ?_, ?_⟩
  · unfold getSkiCoachCommentary
    decide
  · unfold getSkiCoachCommentary
    decide

/-- Witness for `c9_commentary_amended`: the in-game yeti cause. -/
theorem c9_commentary_amended_witness :
    ((⟨0, 0, 0, some "Caught by the Yeti"⟩ : GameStats).causeOfDeath =
        some "Caught by the Yeti" ∧
      strIncludes (strToLower "Caught by the Yeti") "yeti" = true) ∧
    (getSkiCoachCommentary (1/3) ⟨0, 0, 0, some "Caught by the Yeti"⟩ =
        "The Yeti just wants a hug. A very fast, aggressive hug." ∧
      getSkiCoachCommentary (1/3) ⟨0, 0, 0, some "Caught by the Yeti"⟩ =
        getSkiCoachCommentary (2/3) ⟨0, 0, 0, some "Caught by the Yeti"⟩) :=
  ⟨⟨rfl, by decide⟩,
   c9_commentary_amended.1 (1/3) (2/3) ⟨0, 0, 0, some "Caught by the Yeti"⟩
     "Caught by the Yeti" rfl (by decide)⟩

end NileMile
